import Mathlib

/-!
Shallow embedding of the `oaqjp-final-project-emb-ai` repository
(`EmotionDetection/emotion_detection.py` and `server.py`).

The external Watson endpoint is modelled as an input: an `ApiResponse` is
either a transport failure (a `requests.exceptions.RequestException` raised
by `requests.post`), or a delivered response carrying an HTTP status code
and a body.  A body is `none` when `response.json()` fails to parse
(`JSONDecodeError`), and otherwise a JSON value.  JSON numbers are modelled
as rationals (exact values; Python float representation issues are outside
the scope of the claims).  Python `None` inside parsed data is `Json.null`.
Since every value the function manipulates is a sub-value of the parsed
JSON body (or a float literal of the source), JSON values suffice to model
the Python values in flight; a parsed JSON object is an association list
with (as `json.loads` guarantees) string keys, assumed duplicate-free.

Exceptions raised inside the `try:` block of `emotion_detector` are all
caught by its handlers, each of which returns Python `None`; the embedding
therefore evaluates the body in an `Except Unit` monad and maps any error
to `Option.none`, exactly as the handlers do.
-/

/-- A JSON value (= any Python value reachable in `emotion_detector`). -/
inductive Json : Type where
  | null : Json
  | bool : Bool → Json
  | num : ℚ → Json
  | str : String → Json
  | arr : List Json → Json
  | obj : List (String × Json) → Json

/-- Python treats `bool` as a numeric type (`True == 1`); this is the
numeric view used by comparisons and equality. -/
def Json.toNumQ : Json → Option ℚ
  | Json.num q => some q
  | Json.bool b => some (if b then 1 else 0)
  | _ => none

/-- Whether the value is Python `None`. -/
def Json.isNull : Json → Bool
  | Json.null => true
  | _ => false

/-- First binding of a key in an association list (Python dict lookup;
parsed-JSON dicts have unique keys, so first = only). -/
def jlookup : List (String × Json) → String → Option Json
  | [], _ => none
  | (k, v) :: fs, key => if k == key then some v else jlookup fs key

/-- `pre` is a prefix of `s` (on character lists). -/
def charsPre : List Char → List Char → Bool
  | [], _ => true
  | _ :: _, [] => false
  | a :: as, b :: bs => a == b && charsPre as bs

/-- `k` occurs as a contiguous substring of `s` (Python `k in s` on strings). -/
def charsSub (k : List Char) : List Char → Bool
  | [] => charsPre k []
  | c :: rest => charsPre k (c :: rest) || charsSub k rest

/-- Lexicographic order on character lists by code point (Python `<` on
strings). -/
def charsLt : List Char → List Char → Bool
  | [], [] => false
  | [], _ :: _ => true
  | _ :: _, [] => false
  | a :: as, b :: bs => decide (a < b) || (a == b && charsLt as bs)

mutual
/-- Python `==` between two values: numeric kinds compare by value
(`True == 1`), strings by content, lists elementwise, dicts by key set and
values, `None` only to `None`; values of different kinds are unequal
(no exception). -/
def pyEq : Json → Json → Bool
  | Json.str a, Json.str b => a == b
  | Json.arr xs, Json.arr ys => pyEqList xs ys
  | Json.obj fs, Json.obj gs => fs.length == gs.length && pyEqFields fs gs
  | a, b =>
    match Json.toNumQ a, Json.toNumQ b with
    | some x, some y => x == y
    | _, _ => a.isNull && b.isNull

def pyEqList : List Json → List Json → Bool
  | [], [] => true
  | x :: xs, y :: ys => pyEq x y && pyEqList xs ys
  | _, _ => false

def pyEqFields : List (String × Json) → List (String × Json) → Bool
  | [], _ => true
  | (k, v) :: fs, gs =>
    (match jlookup gs k with
     | some w => pyEq v w
     | none => false) && pyEqFields fs gs
end

mutual
/-- Python `a < b`: numbers (and bools) by value, strings lexicographically,
lists lexicographically via `==`/`<` on elements; any other combination
raises `TypeError`. -/
def pyLt : Json → Json → Except Unit Bool
  | Json.str a, Json.str b => Except.ok (charsLt a.data b.data)
  | Json.arr xs, Json.arr ys => pyLtList xs ys
  | a, b =>
    match Json.toNumQ a, Json.toNumQ b with
    | some x, some y => Except.ok (decide (x < y))
    | _, _ => Except.error ()

def pyLtList : List Json → List Json → Except Unit Bool
  | [], [] => Except.ok false
  | [], _ :: _ => Except.ok true
  | _ :: _, [] => Except.ok false
  | x :: xs, y :: ys => if pyEq x y then pyLtList xs ys else pyLt x y
end

/-- Python `key in j` (`'emotionPredictions' in response_json`): key test on
dicts, membership via `==` on lists, substring test on strings; `TypeError`
otherwise. -/
def pyContains (j : Json) (key : String) : Except Unit Bool :=
  match j with
  | Json.obj fs => Except.ok (fs.any (fun p => p.1 == key))
  | Json.arr xs => Except.ok (xs.any (fun x => pyEq x (Json.str key)))
  | Json.str s => Except.ok (charsSub key.data s.data)
  | _ => Except.error ()

/-- Python `j[key]` with a string key: dict lookup (`KeyError` when absent);
`TypeError` on lists, strings and scalars (which need integer indices). -/
def pyGetKey (j : Json) (key : String) : Except Unit Json :=
  match j with
  | Json.obj fs =>
    match jlookup fs key with
    | some v => Except.ok v
    | none => Except.error ()
  | _ => Except.error ()

/-- Python `j[0]`: head of a list or first character of a string
(`IndexError` when empty); on a parsed-JSON dict the key `0` is absent
(string keys only), hence `KeyError`; `TypeError` on scalars. -/
def pyGetZero (j : Json) : Except Unit Json :=
  match j with
  | Json.arr [] => Except.error ()
  | Json.arr (x :: _) => Except.ok x
  | Json.str s =>
    match s.data with
    | [] => Except.error ()
    | c :: _ => Except.ok (Json.str (String.mk [c]))
  | _ => Except.error ()

/-- Python truthiness of a value. -/
def pyTruthy : Json → Bool
  | Json.null => false
  | Json.bool b => b
  | Json.num q => decide (q ≠ 0)
  | Json.str s => !s.data.isEmpty
  | Json.arr xs => !xs.isEmpty
  | Json.obj fs => !fs.isEmpty

/-- Python `j.get(key, dflt)`: only dicts have `.get`; anything else raises
`AttributeError`. -/
def pyDictGetD (j : Json) (key : String) (dflt : Json) : Except Unit Json :=
  match j with
  | Json.obj fs => Except.ok ((jlookup fs key).getD dflt)
  | _ => Except.error ()

/-- Python `for x in j`: lists yield elements, strings their characters
(as one-character strings), dicts their keys; scalars raise `TypeError`. -/
def pyIter (j : Json) : Except Unit (List Json) :=
  match j with
  | Json.arr xs => Except.ok xs
  | Json.str s => Except.ok (s.data.map (fun c => Json.str (String.mk [c])))
  | Json.obj fs => Except.ok (fs.map (fun p => Json.str p.1))
  | _ => Except.error ()

/-- The dictionary returned by `emotion_detector` (lines 115-122): exactly
the six keys `anger`, `disgust`, `fear`, `joy`, `sadness`,
`dominant_emotion`.  Field values are whatever Python values the function
assigned (`Json.null` models Python `None`). -/
structure DetResult : Type where
  anger : Json
  disgust : Json
  fear : Json
  joy : Json
  sadness : Json
  dominant : Json

/-- The mutable local state of the fallback `for` loop (lines 95-112):
the five score variables, `max_score`, and `dominant_emotion`. -/
structure DetState : Type where
  anger : Json
  disgust : Json
  fear : Json
  joy : Json
  sadness : Json
  maxScore : Json
  dominant : Json

/-- CPython `max(iterable, key=f)` over the pairs of a score dict, unrolled:
keeps the first element, replaces the current best exactly when the next
value compares strictly greater (so the first maximal key wins ties);
comparisons may raise. `bk`/`bv` are the current best key and value. -/
def pyMaxKeyAux : String → Json → List (String × Json) → Except Unit String
  | bk, _, [] => Except.ok bk
  | bk, bv, (k, v) :: rest => do
    let gt ← pyLt bv v
    if gt then pyMaxKeyAux k v rest else pyMaxKeyAux bk bv rest

/-- One pass of the fallback branch (lines 95-112): for each prediction,
read `emotion` (default `None`) and `confidence` (default `0.0`), store the
confidence under the matching known emotion via the `elif` chain, and track
the running maximum with `if confidence > max_score`. -/
def fallbackLoop : DetState → List Json → Except Unit DetState
  | st, [] => Except.ok st
  | st, p :: ps => do
    let name ← pyDictGetD p "emotion" Json.null
    let conf ← pyDictGetD p "confidence" (Json.num 0)
    let st1 :=
      if pyEq name (Json.str "anger") then { st with anger := conf }
      else if pyEq name (Json.str "disgust") then { st with disgust := conf }
      else if pyEq name (Json.str "fear") then { st with fear := conf }
      else if pyEq name (Json.str "joy") then { st with joy := conf }
      else if pyEq name (Json.str "sadness") then { st with sadness := conf }
      else st
    let gt ← pyLt st1.maxScore conf
    let st2 := if gt then { st1 with maxScore := conf, dominant := name } else st1
    fallbackLoop st2 ps

/-- The result dict built from the initial scores only (the path that skips
the `if` at line 35): all scores `0.0`, `dominant_emotion = None`. -/
def initResult : DetResult :=
  ⟨Json.num 0, Json.num 0, Json.num 0, Json.num 0, Json.num 0, Json.null⟩

/-- The body of the `try:` block after `response.json()` succeeded
(lines 35-122), evaluated over the parsed body `rj`; `Except.error` is any
raised exception (all handlers return `None`). -/
def tryBody (rj : Json) : Except Unit DetResult := do
  let mem ← pyContains rj "emotionPredictions"
  if mem then
    let preds ← pyGetKey rj "emotionPredictions"
    if pyTruthy preds then
      let p0 ← pyGetZero preds
      let hasEmotions ← pyContains p0 "emotions"
      if hasEmotions then
        let ed ← pyGetKey p0 "emotions"
        let a ← pyDictGetD ed "anger" (Json.num 0)
        let d ← pyDictGetD ed "disgust" (Json.num 0)
        let f ← pyDictGetD ed "fear" (Json.num 0)
        let j ← pyDictGetD ed "joy" (Json.num 0)
        let s ← pyDictGetD ed "sadness" (Json.num 0)
        let dom ← pyMaxKeyAux "anger" a
          [("disgust", d), ("fear", f), ("joy", j), ("sadness", s)]
        Except.ok ⟨a, d, f, j, s, Json.str dom⟩
      else
        let xs ← pyIter preds
        let st ← fallbackLoop
          ⟨Json.num 0, Json.num 0, Json.num 0, Json.num 0, Json.num 0,
           Json.num (-1), Json.null⟩ xs
        Except.ok ⟨st.anger, st.disgust, st.fear, st.joy, st.sadness, st.dominant⟩
    else
      Except.ok initResult
  else
    Except.ok initResult

/-- What the external endpoint did: `netFail` is a raised
`RequestException`; otherwise a delivered status and a body (`none` when
the body is not valid JSON, so `response.json()` raises). -/
inductive ApiResponse : Type where
  | netFail : ApiResponse
  | resp : Nat → Option Json → ApiResponse

/-- `requests.Response.raise_for_status` raises `HTTPError` exactly for
status codes in [400, 600). -/
def raisesForStatus (status : Nat) : Bool :=
  decide (400 ≤ status) && decide (status < 600)

/-- The collapse performed by the three exception handlers (lines
124-132): a raised exception becomes the return value `None`. -/
def resultOf : Except Unit DetResult → Option DetResult
  | Except.ok res => some res
  | Except.error _ => none

/-- `EmotionDetection.emotion_detection.emotion_detector` as a function of
the external response.  The request text only flows into the outbound call
and never influences the branching, so the response is the sole input.
Every exception raised in the `try:` block is caught by one of the three
handlers, each returning `None`. -/
def emotion_detector (r : ApiResponse) : Option DetResult :=
  match r with
  | ApiResponse.netFail => none
  | ApiResponse.resp status body =>
    if raisesForStatus status then none
    else
      match body with
      | none => none
      | some rj => resultOf (tryBody rj)

/-- Rendering of a rational in a Python format string.  Exact decimal
output of Python floats is abstracted: integers render as integers, other
rationals in fraction form; no claim depends on the digits. -/
def ratStr (q : ℚ) : String :=
  if q.den = 1 then toString q.num else toString q

mutual
/-- Python `repr()` of a parsed-JSON value (single-quote character written
via its code point). -/
def pyRepr : Json → String
  | Json.null => "None"
  | Json.bool b => if b then "True" else "False"
  | Json.num q => ratStr q
  | Json.str s => "\x27" ++ s ++ "\x27"
  | Json.arr xs => "[" ++ pyReprList xs ++ "]"
  | Json.obj fs => "\x7b" ++ pyReprFields fs ++ "\x7d"

def pyReprList : List Json → String
  | [] => ""
  | [x] => pyRepr x
  | x :: y :: xs => pyRepr x ++ ", " ++ pyReprList (y :: xs)

def pyReprFields : List (String × Json) → String
  | [] => ""
  | [(k, v)] => "\x27" ++ k ++ "\x27: " ++ pyRepr v
  | (k, v) :: g :: fs => "\x27" ++ k ++ "\x27: " ++ pyRepr v ++ ", " ++ pyReprFields (g :: fs)
end

/-- Python `str()` as used by f-string interpolation: identity on strings,
`repr` otherwise. -/
def pyStr : Json → String
  | Json.str s => s
  | j => pyRepr j

/-- The fixed error message of the route (server.py line 39). -/
def errorMessage : String := "Invalid text! Please try again!"

/-- The f-string of server.py lines 50-54, assembled from a result dict. -/
def formatMessage (rd : DetResult) : String :=
  "For the given statement, the system response is \x27anger\x27: " ++ pyStr rd.anger ++
  ", \x27disgust\x27: " ++ pyStr rd.disgust ++
  ", \x27fear\x27: " ++ pyStr rd.fear ++
  ", \x27joy\x27: " ++ pyStr rd.joy ++
  " and \x27sadness\x27: " ++ pyStr rd.sadness ++
  ". The dominant emotion is " ++ pyStr rd.dominant ++ "."

/-- `server.emotion_detector_route` as a function of the external response:
it calls `emotion_detector`, answers the fixed error message when the
result is `None` or its `dominant_emotion` is `None`, and otherwise the
formatted sentence.  (The request text only flows into the outbound call;
all five score keys are always present in the result dict, so the `.get`
calls of lines 42-47 read the fields directly.) -/
def emotion_detector_route (r : ApiResponse) : String :=
  match emotion_detector r with
  | none => errorMessage
  | some rd => if rd.dominant.isNull then errorMessage else formatMessage rd

/-- The maximum of the five extracted scores. -/
def max5 (qa qd qf qj qs : ℚ) : ℚ :=
  max qa (max qd (max qf (max qj qs)))

/-- Stated from the spec sentence, for comparison with the code: the first
key, in the fixed order anger, disgust, fear, joy, sadness of the score
dictionary, whose score attains the maximum (a score attains the maximum
exactly when the maximum is at most that score). -/
def specFirstMaxKey (qa qd qf qj qs : ℚ) : String :=
  if max5 qa qd qf qj qs ≤ qa then "anger"
  else if max5 qa qd qf qj qs ≤ qd then "disgust"
  else if max5 qa qd qf qj qs ≤ qf then "fear"
  else if max5 qa qd qf qj qs ≤ qj then "joy"
  else "sadness"

/-- The value extracted for key `k` from the `emotions` object:
`emotions_data.get(k, 0.0)` (lines 77-81). -/
def getScore (ed : List (String × Json)) (k : String) : Json :=
  (jlookup ed k).getD (Json.num 0)

/-- The score recorded in a result dict under a given known key, when that
field is numeric. -/
def scoreOf (rd : DetResult) (k : String) : Option ℚ :=
  if k = "anger" then rd.anger.toNumQ
  else if k = "disgust" then rd.disgust.toNumQ
  else if k = "fear" then rd.fear.toNumQ
  else if k = "joy" then rd.joy.toNumQ
  else if k = "sadness" then rd.sadness.toNumQ
  else none

/-- Stated from the spec sentence, for comparison with the code: when
`dominant_emotion` is non-null it names a strictly positive score that is
maximal among the strictly positive scores of the record. -/
def specDominantInv (rd : DetResult) : Prop :=
  rd.dominant ≠ Json.null →
    ∃ (k : String) (q : ℚ), rd.dominant = Json.str k ∧ scoreOf rd k = some q ∧
      0 < q ∧ ∀ (kk : String) (qq : ℚ), scoreOf rd kk = some qq → 0 < qq → qq ≤ q

/-- Stated from the spec sentence, for comparison with the code: the
dominant label is one of the five known keys, Python `None`, or the
sentinel string named by the spec. -/
def specKnownLabel (j : Json) : Prop :=
  j = Json.null ∨ j = Json.str "anger" ∨ j = Json.str "disgust" ∨
  j = Json.str "fear" ∨ j = Json.str "joy" ∨ j = Json.str "sadness" ∨
  j = Json.str "no dominant emotion"

lemma jlookup_any (fs : List (String × Json)) (key : String) (v : Json)
    (h : jlookup fs key = some v) : fs.any (fun p => p.1 == key) = true := by
  induction fs with
  | nil => simp [jlookup] at h
  | cons p fs ih =>
    cases p with
    | mk k w =>
      by_cases hk : k == key
      · simp [hk]
      · simp only [jlookup, hk, if_neg, Bool.false_eq_true, ite_false] at h
        simp [List.any_cons, ih h]

lemma max5_le_one (qa qd qf qj qs : ℚ) :
    max5 qa qd qf qj qs ≤ qa ∨ max5 qa qd qf qj qs ≤ qd ∨ max5 qa qd qf qj qs ≤ qf ∨
    max5 qa qd qf qj qs ≤ qj ∨ max5 qa qd qf qj qs ≤ qs := by
  unfold max5
  rcases max_choice qa (max qd (max qf (max qj qs))) with h1 | h1
  · rw [h1]; exact Or.inl le_rfl
  · rw [h1]
    rcases max_choice qd (max qf (max qj qs)) with h2 | h2
    · rw [h2]; exact Or.inr (Or.inl le_rfl)
    · rw [h2]
      rcases max_choice qf (max qj qs) with h3 | h3
      · rw [h3]; exact Or.inr (Or.inr (Or.inl le_rfl))
      · rw [h3]
        rcases max_choice qj qs with h4 | h4
        · rw [h4]; exact Or.inr (Or.inr (Or.inr (Or.inl le_rfl)))
        · rw [h4]; exact Or.inr (Or.inr (Or.inr (Or.inr le_rfl)))

lemma le_max5_anger (qa qd qf qj qs : ℚ) : qa ≤ max5 qa qd qf qj qs := by
  simp [max5, le_max_iff]

lemma le_max5_disgust (qa qd qf qj qs : ℚ) : qd ≤ max5 qa qd qf qj qs := by
  simp [max5, le_max_iff]

lemma le_max5_fear (qa qd qf qj qs : ℚ) : qf ≤ max5 qa qd qf qj qs := by
  simp [max5, le_max_iff]

lemma le_max5_joy (qa qd qf qj qs : ℚ) : qj ≤ max5 qa qd qf qj qs := by
  simp [max5, le_max_iff]

lemma le_max5_sadness (qa qd qf qj qs : ℚ) : qs ≤ max5 qa qd qf qj qs := by
  simp [max5, le_max_iff]

/-- Over five numeric scores, the unrolled CPython `max` computes exactly
the first key, in dictionary order, attaining the maximum. -/
lemma pyMaxKeyAux_five (qa qd qf qj qs : ℚ) :
    pyMaxKeyAux "anger" (Json.num qa)
      [("disgust", Json.num qd), ("fear", Json.num qf),
       ("joy", Json.num qj), ("sadness", Json.num qs)]
    = Except.ok (specFirstMaxKey qa qd qf qj qs) := by
  have hmo := max5_le_one qa qd qf qj qs
  have hba := le_max5_anger qa qd qf qj qs
  have hbd := le_max5_disgust qa qd qf qj qs
  have hbf := le_max5_fear qa qd qf qj qs
  have hbj := le_max5_joy qa qd qf qj qs
  have hbs := le_max5_sadness qa qd qf qj qs
  simp only [pyMaxKeyAux, pyLt, Json.toNumQ, Except.bind, Bind.bind,
    decide_eq_true_eq, specFirstMaxKey]
  split_ifs with h1 h2 h3 h4 h5 h6 h7 h8 h9 h10 h11 h12 h13 h14 h15 h16 h17 h18
    h19 h20 h21 h22 h23 h24 h25 h26 h27 h28 h29 h30 h31 h32 h33 h34 h35 h36 <;>
    first
      | rfl
      | (exfalso; rcases hmo with hm | hm | hm | hm | hm <;> linarith)

lemma pyMaxKeyAux_mem (ps : List (String × Json)) (bk : String) (bv : Json) (k : String)
    (h : pyMaxKeyAux bk bv ps = Except.ok k) : k = bk ∨ k ∈ ps.map Prod.fst := by
  induction ps generalizing bk bv with
  | nil =>
    simp only [pyMaxKeyAux, Except.ok.injEq] at h
    exact Or.inl h.symm
  | cons p rest ih =>
    cases p with
    | mk k1 v1 =>
      simp only [pyMaxKeyAux, Bind.bind] at h
      cases hlt : pyLt bv v1 with
      | error e => rw [hlt] at h; simp [Except.bind] at h
      | ok gt =>
        rw [hlt] at h
        simp only [Except.bind] at h
        by_cases hg : gt = true
        · rw [hg] at h
          simp only [if_true] at h
          rcases ih k1 v1 h with h1 | h1
          · exact Or.inr (by simp [h1])
          · exact Or.inr (by simp [h1])
        · rw [Bool.not_eq_true] at hg
          rw [hg] at h
          simp only [Bool.false_eq_true, if_false] at h
          rcases ih bk bv h with h1 | h1
          · exact Or.inl h1
          · exact Or.inr (by simp [h1])

/-- Evaluation of the `try:` body through the `emotions`-object branch
(lines 74-93): the five scores are the extracted values and the dominant
label is the unrolled `max` over them (any comparison failure aborts to an
exception). -/
lemma tryBody_emotions (fs p0 : List (String × Json)) (ps : List Json)
    (edf : List (String × Json))
    (hP : jlookup fs "emotionPredictions" = some (Json.arr (Json.obj p0 :: ps)))
    (hE : jlookup p0 "emotions" = some (Json.obj edf)) :
    tryBody (Json.obj fs) =
      Except.map
        (fun dom => DetResult.mk (getScore edf "anger") (getScore edf "disgust")
          (getScore edf "fear") (getScore edf "joy") (getScore edf "sadness")
          (Json.str dom))
        (pyMaxKeyAux "anger" (getScore edf "anger")
          [("disgust", getScore edf "disgust"), ("fear", getScore edf "fear"),
           ("joy", getScore edf "joy"), ("sadness", getScore edf "sadness")]) := by
  have hA := jlookup_any fs "emotionPredictions" _ hP
  have hB := jlookup_any p0 "emotions" _ hE
  simp only [tryBody, pyContains, hA, hB, pyGetKey, hP, hE, pyTruthy, pyGetZero,
    pyDictGetD, getScore, Bind.bind, Except.bind, List.isEmpty_cons, Bool.not_false,
    if_true, Except.map]

/-- For statuses below 400, `raise_for_status` does not raise and the
parsed body is processed. -/
lemma emotion_detector_resp_lt400 (st : Nat) (h : st < 400) (rj : Json) :
    emotion_detector (ApiResponse.resp st (some rj)) = resultOf (tryBody rj) := by
  have hr : raisesForStatus st = false := by
    simp only [raisesForStatus, Bool.and_eq_false_iff, decide_eq_false_iff_not]
    omega
  simp [emotion_detector, hr]

lemma scoreOf_num_le_max5 (qa qd qf qj qs : ℚ) (dom : Json) (kk : String) (qq : ℚ)
    (h : scoreOf ⟨Json.num qa, Json.num qd, Json.num qf, Json.num qj, Json.num qs, dom⟩ kk
          = some qq) :
    qq ≤ max5 qa qd qf qj qs := by
  have hba := le_max5_anger qa qd qf qj qs
  have hbd := le_max5_disgust qa qd qf qj qs
  have hbf := le_max5_fear qa qd qf qj qs
  have hbj := le_max5_joy qa qd qf qj qs
  have hbs := le_max5_sadness qa qd qf qj qs
  unfold scoreOf at h
  split_ifs at h <;>
    simp only [Json.toNumQ, Option.some.injEq] at h <;>
    (subst h; assumption)

lemma scoreOf_firstMaxKey (qa qd qf qj qs : ℚ) (dom : Json) :
    scoreOf ⟨Json.num qa, Json.num qd, Json.num qf, Json.num qj, Json.num qs, dom⟩
      (specFirstMaxKey qa qd qf qj qs) = some (max5 qa qd qf qj qs) := by
  have hba := le_max5_anger qa qd qf qj qs
  have hbd := le_max5_disgust qa qd qf qj qs
  have hbf := le_max5_fear qa qd qf qj qs
  have hbj := le_max5_joy qa qd qf qj qs
  have hbs := le_max5_sadness qa qd qf qj qs
  have hmo := max5_le_one qa qd qf qj qs
  unfold specFirstMaxKey
  split_ifs with h1 h2 h3 h4
  · have hq : qa = max5 qa qd qf qj qs := le_antisymm hba h1
    simp [scoreOf, Json.toNumQ, ← hq]
  · have hq : qd = max5 qa qd qf qj qs := le_antisymm hbd h2
    simp [scoreOf, Json.toNumQ, ← hq]
  · have hq : qf = max5 qa qd qf qj qs := le_antisymm hbf h3
    simp [scoreOf, Json.toNumQ, ← hq]
  · have hq : qj = max5 qa qd qf qj qs := le_antisymm hbj h4
    simp [scoreOf, Json.toNumQ, ← hq]
  · have hs5 : max5 qa qd qf qj qs ≤ qs := by
      rcases hmo with hm | hm | hm | hm | hm <;>
        first | assumption | (exact absurd hm (by assumption))
    have hq : qs = max5 qa qd qf qj qs := le_antisymm hbs hs5
    simp [scoreOf, Json.toNumQ, ← hq]

/-- C1: FALSE as stated.  On a 2xx response whose first prediction carries
an `emotions` object in which no score is strictly positive (here: an empty
`emotions` object, so all five extracted scores default to 0.0),
`emotion_detector` sets `dominant_emotion` to `"anger"` — the plain arg-max
over all five scores with no positivity filter — and not to the sentinel
string `"no dominant emotion"`, which appears nowhere in the code. -/
theorem C1_counterexample :
    emotion_detector (ApiResponse.resp 200 (some (Json.obj [("emotionPredictions",
        Json.arr [Json.obj [("emotions", Json.obj [])]])])))
      = some ⟨Json.num 0, Json.num 0, Json.num 0, Json.num 0, Json.num 0,
              Json.str "anger"⟩ ∧
    Json.str "anger" ≠ Json.str "no dominant emotion" := by
  constructor
  · rfl
  · simp

/-- C1 (amended): for every 2xx response whose first prediction carries an
`emotions` object with numeric extracted scores, `emotion_detector` sets
`dominant_emotion` to the first key, in the order anger, disgust, fear,
joy, sadness, attaining the maximum of all five extracted scores — with no
restriction to strictly positive scores and no sentinel value. -/
theorem C1_dominant_overall_argmax (st : Nat) (fs p0 : List (String × Json))
    (ps : List Json) (edf : List (String × Json)) (qa qd qf qj qs : ℚ)
    (h2a : 200 ≤ st) (h2b : st < 300)
    (hP : jlookup fs "emotionPredictions" = some (Json.arr (Json.obj p0 :: ps)))
    (hE : jlookup p0 "emotions" = some (Json.obj edf))
    (ha : getScore edf "anger" = Json.num qa)
    (hd : getScore edf "disgust" = Json.num qd)
    (hf : getScore edf "fear" = Json.num qf)
    (hj : getScore edf "joy" = Json.num qj)
    (hs : getScore edf "sadness" = Json.num qs) :
    emotion_detector (ApiResponse.resp st (some (Json.obj fs)))
      = some ⟨Json.num qa, Json.num qd, Json.num qf, Json.num qj, Json.num qs,
              Json.str (specFirstMaxKey qa qd qf qj qs)⟩ := by
  rw [emotion_detector_resp_lt400 st (by omega), tryBody_emotions fs p0 ps edf hP hE,
    ha, hd, hf, hj, hs, pyMaxKeyAux_five]
  rfl

/-- Witness for C1 (amended) at concrete scores 1, 2, 3, 9, 4: the dominant
emotion is the arg-max key `joy`. -/
theorem C1_dominant_overall_argmax_witness :
    emotion_detector (ApiResponse.resp 200 (some (Json.obj [("emotionPredictions",
        Json.arr [Json.obj [("emotions",
          Json.obj [("anger", Json.num 1), ("disgust", Json.num 2), ("fear", Json.num 3),
                    ("joy", Json.num 9), ("sadness", Json.num 4)])]])])))
      = some ⟨Json.num 1, Json.num 2, Json.num 3, Json.num 9, Json.num 4,
              Json.str (specFirstMaxKey 1 2 3 9 4)⟩ :=
  C1_dominant_overall_argmax 200 _ _ _ _ 1 2 3 9 4 (by omega) (by omega)
    rfl rfl rfl rfl rfl rfl rfl

/-- C2: FALSE as stated.  When every extracted score is 0.0 the code still
sets `dominant_emotion` to `"anger"` (the arg-max is taken over all scores,
not only the strictly positive ones), so the returned record has a non-null
dominant emotion although no score entry is strictly greater than zero. -/
theorem C2_counterexample :
    emotion_detector (ApiResponse.resp 200 (some (Json.obj [("emotionPredictions",
        Json.arr [Json.obj [("emotions",
          Json.obj [("anger", Json.num 0), ("disgust", Json.num 0), ("fear", Json.num 0),
                    ("joy", Json.num 0), ("sadness", Json.num 0)])]])])))
      = some ⟨Json.num 0, Json.num 0, Json.num 0, Json.num 0, Json.num 0,
              Json.str "anger"⟩ ∧
    ¬ specDominantInv ⟨Json.num 0, Json.num 0, Json.num 0, Json.num 0, Json.num 0,
        Json.str "anger"⟩ := by
  constructor
  · rfl
  · intro h
    obtain ⟨k, q, hk, hsc, hq, -⟩ := h (by simp)
    have hq0 : q = 0 := by
      unfold scoreOf at hsc
      split_ifs at hsc <;> simp [Json.toNumQ] at hsc <;> linarith
    rw [hq0] at hq
    exact lt_irrefl 0 hq

/-- C2 (amended): for every result produced through the `emotions`-object
branch whose five numeric extracted scores include at least one strictly
positive score, the non-null `dominant_emotion` names a strictly positive
score that is maximal among the strictly positive score entries of the
record. -/
theorem C2_dominant_max_of_positive (st : Nat) (fs p0 : List (String × Json))
    (ps : List Json) (edf : List (String × Json)) (qa qd qf qj qs : ℚ)
    (h2a : 200 ≤ st) (h2b : st < 300)
    (hP : jlookup fs "emotionPredictions" = some (Json.arr (Json.obj p0 :: ps)))
    (hE : jlookup p0 "emotions" = some (Json.obj edf))
    (ha : getScore edf "anger" = Json.num qa)
    (hd : getScore edf "disgust" = Json.num qd)
    (hf : getScore edf "fear" = Json.num qf)
    (hj : getScore edf "joy" = Json.num qj)
    (hs : getScore edf "sadness" = Json.num qs)
    (hpos : 0 < max5 qa qd qf qj qs) :
    ∃ rd, emotion_detector (ApiResponse.resp st (some (Json.obj fs))) = some rd ∧
      rd.dominant ≠ Json.null ∧ specDominantInv rd := by
  refine ⟨⟨Json.num qa, Json.num qd, Json.num qf, Json.num qj, Json.num qs,
      Json.str (specFirstMaxKey qa qd qf qj qs)⟩, ?_, by simp, ?_⟩
  · rw [emotion_detector_resp_lt400 st (by omega), tryBody_emotions fs p0 ps edf hP hE,
      ha, hd, hf, hj, hs, pyMaxKeyAux_five]
    rfl
  · intro _
    exact ⟨specFirstMaxKey qa qd qf qj qs, max5 qa qd qf qj qs, rfl,
      scoreOf_firstMaxKey qa qd qf qj qs _, hpos,
      fun kk qq hsc _ => scoreOf_num_le_max5 qa qd qf qj qs _ kk qq hsc⟩

/-- Witness for C2 (amended) at concrete scores 1, 2, 3, 9, 4. -/
theorem C2_dominant_max_of_positive_witness :
    ∃ rd, emotion_detector (ApiResponse.resp 200 (some (Json.obj [("emotionPredictions",
        Json.arr [Json.obj [("emotions",
          Json.obj [("anger", Json.num 1), ("disgust", Json.num 2), ("fear", Json.num 3),
                    ("joy", Json.num 9), ("sadness", Json.num 4)])]])])))
      = some rd ∧ rd.dominant ≠ Json.null ∧ specDominantInv rd :=
  C2_dominant_max_of_positive 200 _ _ _ _ 1 2 3 9 4 (by omega) (by omega)
    rfl rfl rfl rfl rfl rfl rfl (by norm_num [max5])

/-- C3: FALSE as stated.  On an HTTP 400 response `raise_for_status` raises
`HTTPError`, the handler of line 124 catches it and returns `None`: the
caller receives no record at all, not a record whose five scores and
dominant emotion are null. -/
theorem C3_counterexample :
    emotion_detector (ApiResponse.resp 400 (some (Json.obj [("emotionPredictions",
        Json.arr [Json.obj [("emotions", Json.obj [("joy", Json.num 1)])]])])))
      = none := rfl

/-- C3 (amended): on every HTTP 400 response — whatever the body, including
the blank-input signal — `emotion_detector` returns `None` (the absence of
a record), which the route reports with the same invalid-text message. -/
theorem C3_http400_returns_none (body : Option Json) :
    emotion_detector (ApiResponse.resp 400 body) = none := rfl

/-- C7: FALSE as stated.  `raise_for_status` raises only for statuses in
[400, 600): a non-2xx status outside that range (here 300) is processed
exactly like a 2xx response, and a populated record is returned. -/
theorem C7_counterexample :
    emotion_detector (ApiResponse.resp 300 (some (Json.obj [("emotionPredictions",
        Json.arr [Json.obj [("emotions",
          Json.obj [("anger", Json.num 1), ("disgust", Json.num 2), ("fear", Json.num 3),
                    ("joy", Json.num 9), ("sadness", Json.num 4)])]])])))
      = some ⟨Json.num 1, Json.num 2, Json.num 3, Json.num 9, Json.num 4,
              Json.str "joy"⟩ := rfl

/-- C7 (amended): every response with an HTTP status in [400, 600) — the
range for which `raise_for_status` raises, 400 included — makes
`emotion_detector` return `None`; non-2xx statuses below 400 are instead
processed like 2xx responses. -/
theorem C7_4xx5xx_fail (st : Nat) (body : Option Json)
    (h1 : 400 ≤ st) (h2 : st < 600) :
    emotion_detector (ApiResponse.resp st body) = none := by
  have hr : raisesForStatus st = true := by
    simp only [raisesForStatus, Bool.and_eq_true, decide_eq_true_eq]
    omega
  simp [emotion_detector, hr]

/-- Witness for C7 (amended) at status 503 with a well-formed body. -/
theorem C7_4xx5xx_fail_witness :
    emotion_detector (ApiResponse.resp 503 (some (Json.obj [("emotionPredictions",
        Json.arr [Json.obj [("emotions", Json.obj [("joy", Json.num 1)])]])])))
      = none :=
  C7_4xx5xx_fail 503 _ (by omega) (by omega)

/-- C4: FALSE as stated.  A 2xx response whose JSON body lacks the
`emotionPredictions` key (here the empty object) does not collapse to the
absence of a result: the guard of line 35 is false, so the function falls
through to line 115 and returns the populated record of all-zero scores
with a null dominant emotion. -/
theorem C4_counterexample :
    emotion_detector (ApiResponse.resp 200 (some (Json.obj []))) = some initResult ∧
    some initResult ≠ (none : Option DetResult) := by
  constructor
  · rfl
  · simp

/-- C4 (amended): network failure and non-JSON bodies yield `None` (no
exception escapes), but a 2xx JSON-object body with the `emotionPredictions`
key absent, or bound to a falsy value such as the empty list, yields the
all-zero record with null dominant emotion rather than `None`. -/
theorem C4_failure_modes :
    (emotion_detector ApiResponse.netFail = none) ∧
    (∀ st : Nat, emotion_detector (ApiResponse.resp st none) = none) ∧
    (∀ (st : Nat) (fs : List (String × Json)), st < 400 →
      fs.any (fun p => p.1 == "emotionPredictions") = false →
      emotion_detector (ApiResponse.resp st (some (Json.obj fs))) = some initResult) ∧
    (∀ (st : Nat) (fs : List (String × Json)), st < 400 →
      jlookup fs "emotionPredictions" = some (Json.arr []) →
      emotion_detector (ApiResponse.resp st (some (Json.obj fs))) = some initResult) := by
  refine ⟨rfl, ?_, ?_, ?_⟩
  · intro st
    cases h : raisesForStatus st <;> simp [emotion_detector, h]
  · intro st fs h1 h2
    rw [emotion_detector_resp_lt400 st h1]
    simp [tryBody, pyContains, h2, Bind.bind, Except.bind, resultOf]
  · intro st fs h1 h2
    have hA := jlookup_any fs "emotionPredictions" _ h2
    rw [emotion_detector_resp_lt400 st h1]
    simp [tryBody, pyContains, hA, pyGetKey, h2, pyTruthy, Bind.bind, Except.bind,
      resultOf]

/-- Witness for C4 (amended): a 2xx body without the key, and one with an
empty prediction list, both produce the populated all-zero record. -/
theorem C4_failure_modes_witness :
    emotion_detector (ApiResponse.resp 200 (some (Json.obj [("x", Json.null)])))
      = some initResult ∧
    emotion_detector (ApiResponse.resp 250 (some (Json.obj [("emotionPredictions",
        Json.arr [])]))) = some initResult :=
  ⟨C4_failure_modes.2.2.1 200 [("x", Json.null)] (by omega) rfl,
   C4_failure_modes.2.2.2 250 [("emotionPredictions", Json.arr [])] (by omega) rfl⟩

/-- C5: FALSE as stated.  When the first prediction has no `emotions` key,
the fallback branch of lines 94-112 tracks the arg-max over the
predictions' own `emotion` labels, so an unrecognized label from the
response (here `surprise`) is returned as `dominant_emotion`. -/
theorem C5_counterexample :
    emotion_detector (ApiResponse.resp 200 (some (Json.obj [("emotionPredictions",
        Json.arr [Json.obj [("emotion", Json.str "surprise"),
                            ("confidence", Json.num 1)]])])))
      = some ⟨Json.num 0, Json.num 0, Json.num 0, Json.num 0, Json.num 0,
              Json.str "surprise"⟩ ∧
    ¬ specKnownLabel (Json.str "surprise") := by
  constructor
  · rfl
  · simp [specKnownLabel]

/-- When the first prediction's `emotions` value is not a dict, the
extraction of line 77 raises (`.get` on a non-dict) and the whole call
collapses to an exception. -/
lemma tryBody_emotions_cases (fs p0 : List (String × Json)) (ps : List Json) (ed : Json)
    (hP : jlookup fs "emotionPredictions" = some (Json.arr (Json.obj p0 :: ps)))
    (hE : jlookup p0 "emotions" = some ed) :
    (∃ edf, ed = Json.obj edf) ∨ tryBody (Json.obj fs) = Except.error () := by
  have hA := jlookup_any fs "emotionPredictions" _ hP
  have hB := jlookup_any p0 "emotions" _ hE
  cases ed with
  | obj edf => exact Or.inl ⟨edf, rfl⟩
  | null =>
    right
    simp [tryBody, pyContains, hA, hB, pyGetKey, hP, hE, pyTruthy, pyGetZero,
      pyDictGetD, Bind.bind, Except.bind]
  | bool b =>
    right
    simp [tryBody, pyContains, hA, hB, pyGetKey, hP, hE, pyTruthy, pyGetZero,
      pyDictGetD, Bind.bind, Except.bind]
  | num q =>
    right
    simp [tryBody, pyContains, hA, hB, pyGetKey, hP, hE, pyTruthy, pyGetZero,
      pyDictGetD, Bind.bind, Except.bind]
  | str s =>
    right
    simp [tryBody, pyContains, hA, hB, pyGetKey, hP, hE, pyTruthy, pyGetZero,
      pyDictGetD, Bind.bind, Except.bind]
  | arr xs =>
    right
    simp [tryBody, pyContains, hA, hB, pyGetKey, hP, hE, pyTruthy, pyGetZero,
      pyDictGetD, Bind.bind, Except.bind]

/-- C5 (amended): on every response routed through the `emotions`-object
branch — whatever the JSON values of the scores — a returned record's
dominant emotion is one of the five known keys; the unrecognized-label
escape exists only in the fallback branch for predictions without an
`emotions` object. -/
theorem C5_emotions_branch_label (st : Nat) (fs p0 : List (String × Json))
    (ps : List Json) (ed : Json) (rd : DetResult)
    (hP : jlookup fs "emotionPredictions" = some (Json.arr (Json.obj p0 :: ps)))
    (hE : jlookup p0 "emotions" = some ed)
    (hr : emotion_detector (ApiResponse.resp st (some (Json.obj fs))) = some rd) :
    rd.dominant = Json.str "anger" ∨ rd.dominant = Json.str "disgust" ∨
    rd.dominant = Json.str "fear" ∨ rd.dominant = Json.str "joy" ∨
    rd.dominant = Json.str "sadness" := by
  cases hrs : raisesForStatus st with
  | true => simp [emotion_detector, hrs] at hr
  | false =>
    simp only [emotion_detector, hrs, Bool.false_eq_true, if_false] at hr
    rcases tryBody_emotions_cases fs p0 ps ed hP hE with ⟨edf, rfl⟩ | herr
    · rw [tryBody_emotions fs p0 ps edf hP hE] at hr
      cases hmx : pyMaxKeyAux "anger" (getScore edf "anger")
          [("disgust", getScore edf "disgust"), ("fear", getScore edf "fear"),
           ("joy", getScore edf "joy"), ("sadness", getScore edf "sadness")] with
      | error e => rw [hmx] at hr; simp [Except.map, resultOf] at hr
      | ok k =>
        rw [hmx] at hr
        simp only [Except.map, resultOf, Option.some.injEq] at hr
        rcases pyMaxKeyAux_mem _ _ _ _ hmx with hk | hk
        · subst hk; rw [← hr]; simp
        · rw [← hr]
          have hk2 : k = "disgust" ∨ k = "fear" ∨ k = "joy" ∨ k = "sadness" := by
            simpa using hk
          rcases hk2 with rfl | rfl | rfl | rfl <;> simp
    · rw [herr] at hr
      simp [resultOf] at hr

/-- Witness for C5 (amended) at a concrete `emotions` object carrying an
unknown extra key `surprise`: the dominant emotion is still a known key. -/
theorem C5_emotions_branch_label_witness :
    (⟨Json.num 0, Json.num 0, Json.num 0, Json.num 0, Json.num 0,
      Json.str "anger"⟩ : DetResult).dominant = Json.str "anger" ∨
    (⟨Json.num 0, Json.num 0, Json.num 0, Json.num 0, Json.num 0,
      Json.str "anger"⟩ : DetResult).dominant = Json.str "disgust" ∨
    (⟨Json.num 0, Json.num 0, Json.num 0, Json.num 0, Json.num 0,
      Json.str "anger"⟩ : DetResult).dominant = Json.str "fear" ∨
    (⟨Json.num 0, Json.num 0, Json.num 0, Json.num 0, Json.num 0,
      Json.str "anger"⟩ : DetResult).dominant = Json.str "joy" ∨
    (⟨Json.num 0, Json.num 0, Json.num 0, Json.num 0, Json.num 0,
      Json.str "anger"⟩ : DetResult).dominant = Json.str "sadness" :=
  C5_emotions_branch_label 200 [("emotionPredictions",
      Json.arr [Json.obj [("emotions", Json.obj [("surprise", Json.num 9)])]])]
    [("emotions", Json.obj [("surprise", Json.num 9)])] []
    (Json.obj [("surprise", Json.num 9)]) _ rfl rfl rfl

lemma isNull_false_of_ne (j : Json) (h : j ≠ Json.null) : j.isNull = false := by
  cases j with
  | null => exact absurd rfl h
  | bool b => rfl
  | num q => rfl
  | str s => rfl
  | arr xs => rfl
  | obj fs => rfl

/-- The formatted sentence is never the fixed error message (its fixed text
alone is already longer). -/
lemma formatMessage_ne_error (rd : DetResult) : formatMessage rd ≠ errorMessage := by
  intro h
  have hl := congrArg String.length h
  have h1 : ("For the given statement, the system response is \x27anger\x27: " :
      String).length = 57 := rfl
  have h2 : (", \x27disgust\x27: " : String).length = 13 := rfl
  have h3 : (", \x27fear\x27: " : String).length = 10 := rfl
  have h4 : (", \x27joy\x27: " : String).length = 9 := rfl
  have h5 : (" and \x27sadness\x27: " : String).length = 16 := rfl
  have h6 : (". The dominant emotion is " : String).length = 26 := rfl
  have h7 : (("." : String)).length = 1 := rfl
  have h8 : (errorMessage).length = 31 := rfl
  simp only [formatMessage, String.length_append, h1, h2, h3, h4, h5, h6, h7, h8] at hl
  omega

/-- C6: the `/emotionDetector` route returns the fixed error string exactly
when `emotion_detector` returns `None` or a record with null
`dominant_emotion`, and otherwise the single formatted sentence carrying
the five scores and the dominant label; no other outcome exists. -/
theorem C6_route_outcomes (r : ApiResponse) :
    (emotion_detector_route r = errorMessage ↔
      emotion_detector r = none ∨
        ∃ rd, emotion_detector r = some rd ∧ rd.dominant = Json.null) ∧
    (∀ rd, emotion_detector r = some rd → rd.dominant ≠ Json.null →
      emotion_detector_route r = formatMessage rd) := by
  constructor
  · constructor
    · intro h
      cases hopt : emotion_detector r with
      | none => exact Or.inl rfl
      | some rd =>
        right
        refine ⟨rd, rfl, ?_⟩
        by_contra hd
        have hnull := isNull_false_of_ne rd.dominant hd
        unfold emotion_detector_route at h
        rw [hopt] at h
        simp only [hnull, Bool.false_eq_true, if_false] at h
        exact formatMessage_ne_error rd h
    · intro h
      rcases h with h | ⟨rd, h1, h2⟩
      · unfold emotion_detector_route
        rw [h]
      · unfold emotion_detector_route
        rw [h1]
        have : rd.dominant.isNull = true := by rw [h2]; rfl
        simp [this]
  · intro rd h1 h2
    have hnull := isNull_false_of_ne rd.dominant h2
    unfold emotion_detector_route
    rw [h1]
    simp [hnull]

/-- Witness for C6 at two concrete responses: a 4xx failure shows the error
string, a 2xx success shows the formatted sentence. -/
theorem C6_route_outcomes_witness :
    emotion_detector_route (ApiResponse.resp 400 none) = errorMessage ∧
    emotion_detector_route (ApiResponse.resp 200 (some (Json.obj [("emotionPredictions",
        Json.arr [Json.obj [("emotions", Json.obj [("joy", Json.num 1)])]])])))
      = formatMessage ⟨Json.num 0, Json.num 0, Json.num 0, Json.num 1, Json.num 0,
          Json.str "joy"⟩ :=
  ⟨(C6_route_outcomes (ApiResponse.resp 400 none)).1.mpr (Or.inl rfl),
   (C6_route_outcomes _).2
     ⟨Json.num 0, Json.num 0, Json.num 0, Json.num 1, Json.num 0, Json.str "joy"⟩
     rfl (by simp)⟩

/-- C8: the embedding of `emotion_detector` is a total function, every
raised exception being caught by the handlers of lines 124-132 and mapped
to `None`: for every external response — transport failure, non-JSON body,
or arbitrary JSON — the call terminates with either a result dictionary or
`None`, and no exception reaches the caller. -/
theorem C8_total_dict_or_none (r : ApiResponse) :
    (∃ rd : DetResult, emotion_detector r = some rd) ∨ emotion_detector r = none := by
  cases h : emotion_detector r with
  | none => exact Or.inr rfl
  | some rd => exact Or.inl ⟨rd, rfl⟩

/-- C9: FALSE as stated.  The extracted score values are stored as-is: when
the `emotions` object carries string values, the comparisons of `max` are
string comparisons and the returned record's five score fields are strings,
not numbers. -/
theorem C9_counterexample :
    emotion_detector (ApiResponse.resp 200 (some (Json.obj [("emotionPredictions",
        Json.arr [Json.obj [("emotions",
          Json.obj [("anger", Json.str "b"), ("disgust", Json.str "a"),
                    ("fear", Json.str "a"), ("joy", Json.str "a"),
                    ("sadness", Json.str "a")])]])])))
      = some ⟨Json.str "b", Json.str "a", Json.str "a", Json.str "a", Json.str "a",
              Json.str "anger"⟩ ∧
    (Json.str "b").toNumQ = none := ⟨rfl, rfl⟩

/-- C9 (amended): every record returned through the `emotions`-object
branch has exactly the six fixed keys (by construction of the result
dict); its five score fields equal the values extracted from the response
(defaulting to 0.0 when absent, but not necessarily numeric), and its
dominant emotion is a string. -/
theorem C9_fields_are_extracted (st : Nat) (fs p0 : List (String × Json))
    (ps : List Json) (edf : List (String × Json)) (rd : DetResult)
    (hP : jlookup fs "emotionPredictions" = some (Json.arr (Json.obj p0 :: ps)))
    (hE : jlookup p0 "emotions" = some (Json.obj edf))
    (hr : emotion_detector (ApiResponse.resp st (some (Json.obj fs))) = some rd) :
    rd.anger = getScore edf "anger" ∧ rd.disgust = getScore edf "disgust" ∧
    rd.fear = getScore edf "fear" ∧ rd.joy = getScore edf "joy" ∧
    rd.sadness = getScore edf "sadness" ∧ ∃ k : String, rd.dominant = Json.str k := by
  cases hrs : raisesForStatus st with
  | true => simp [emotion_detector, hrs] at hr
  | false =>
    simp only [emotion_detector, hrs, Bool.false_eq_true, if_false] at hr
    rw [tryBody_emotions fs p0 ps edf hP hE] at hr
    cases hmx : pyMaxKeyAux "anger" (getScore edf "anger")
        [("disgust", getScore edf "disgust"), ("fear", getScore edf "fear"),
         ("joy", getScore edf "joy"), ("sadness", getScore edf "sadness")] with
    | error e => rw [hmx] at hr; simp [Except.map, resultOf] at hr
    | ok k =>
      rw [hmx] at hr
      simp only [Except.map, resultOf, Option.some.injEq] at hr
      rw [← hr]
      exact ⟨rfl, rfl, rfl, rfl, rfl, k, rfl⟩

/-- Witness for C9 (amended) at the string-valued `emotions` object. -/
theorem C9_fields_are_extracted_witness :
    (⟨Json.str "b", Json.str "a", Json.str "a", Json.str "a", Json.str "a",
      Json.str "anger"⟩ : DetResult).anger
        = getScore [("anger", Json.str "b"), ("disgust", Json.str "a"),
            ("fear", Json.str "a"), ("joy", Json.str "a"),
            ("sadness", Json.str "a")] "anger" ∧
    (⟨Json.str "b", Json.str "a", Json.str "a", Json.str "a", Json.str "a",
      Json.str "anger"⟩ : DetResult).disgust
        = getScore [("anger", Json.str "b"), ("disgust", Json.str "a"),
            ("fear", Json.str "a"), ("joy", Json.str "a"),
            ("sadness", Json.str "a")] "disgust" ∧
    (⟨Json.str "b", Json.str "a", Json.str "a", Json.str "a", Json.str "a",
      Json.str "anger"⟩ : DetResult).fear
        = getScore [("anger", Json.str "b"), ("disgust", Json.str "a"),
            ("fear", Json.str "a"), ("joy", Json.str "a"),
            ("sadness", Json.str "a")] "fear" ∧
    (⟨Json.str "b", Json.str "a", Json.str "a", Json.str "a", Json.str "a",
      Json.str "anger"⟩ : DetResult).joy
        = getScore [("anger", Json.str "b"), ("disgust", Json.str "a"),
            ("fear", Json.str "a"), ("joy", Json.str "a"),
            ("sadness", Json.str "a")] "joy" ∧
    (⟨Json.str "b", Json.str "a", Json.str "a", Json.str "a", Json.str "a",
      Json.str "anger"⟩ : DetResult).sadness
        = getScore [("anger", Json.str "b"), ("disgust", Json.str "a"),
            ("fear", Json.str "a"), ("joy", Json.str "a"),
            ("sadness", Json.str "a")] "sadness" ∧
    ∃ k : String,
      (⟨Json.str "b", Json.str "a", Json.str "a", Json.str "a", Json.str "a",
        Json.str "anger"⟩ : DetResult).dominant = Json.str k :=
  C9_fields_are_extracted 200
    [("emotionPredictions", Json.arr [Json.obj [("emotions",
      Json.obj [("anger", Json.str "b"), ("disgust", Json.str "a"),
                ("fear", Json.str "a"), ("joy", Json.str "a"),
                ("sadness", Json.str "a")])]])]
    [("emotions", Json.obj [("anger", Json.str "b"), ("disgust", Json.str "a"),
        ("fear", Json.str "a"), ("joy", Json.str "a"), ("sadness", Json.str "a")])]
    []
    [("anger", Json.str "b"), ("disgust", Json.str "a"), ("fear", Json.str "a"),
     ("joy", Json.str "a"), ("sadness", Json.str "a")]
    _ rfl rfl rfl

/-- C10: in the `emotions`-object branch, ties between numeric extracted
scores are broken by the fixed dictionary order anger, disgust, fear, joy,
sadness: the dominant emotion is the first key of the score dictionary
attaining the maximum (`max` replaces its best only on a strictly greater
value). -/
theorem C10_first_key_attains_max (st : Nat) (fs p0 : List (String × Json))
    (ps : List Json) (edf : List (String × Json)) (qa qd qf qj qs : ℚ)
    (h400 : st < 400)
    (hP : jlookup fs "emotionPredictions" = some (Json.arr (Json.obj p0 :: ps)))
    (hE : jlookup p0 "emotions" = some (Json.obj edf))
    (ha : getScore edf "anger" = Json.num qa)
    (hd : getScore edf "disgust" = Json.num qd)
    (hf : getScore edf "fear" = Json.num qf)
    (hj : getScore edf "joy" = Json.num qj)
    (hs : getScore edf "sadness" = Json.num qs) :
    ∃ rd, emotion_detector (ApiResponse.resp st (some (Json.obj fs))) = some rd ∧
      rd.dominant = Json.str (specFirstMaxKey qa qd qf qj qs) := by
  refine ⟨⟨Json.num qa, Json.num qd, Json.num qf, Json.num qj, Json.num qs,
      Json.str (specFirstMaxKey qa qd qf qj qs)⟩, ?_, rfl⟩
  rw [emotion_detector_resp_lt400 st h400, tryBody_emotions fs p0 ps edf hP hE,
    ha, hd, hf, hj, hs, pyMaxKeyAux_five]
  rfl

/-- Witness for C10 at the three-way tie 0, 7, 7, 7, 0: the dominant
emotion is the first tied key, `disgust`. -/
theorem C10_first_key_attains_max_witness :
    ∃ rd, emotion_detector (ApiResponse.resp 200 (some (Json.obj [("emotionPredictions",
        Json.arr [Json.obj [("emotions",
          Json.obj [("anger", Json.num 0), ("disgust", Json.num 7), ("fear", Json.num 7),
                    ("joy", Json.num 7), ("sadness", Json.num 0)])]])])))
      = some rd ∧ rd.dominant = Json.str (specFirstMaxKey 0 7 7 7 0) :=
  C10_first_key_attains_max 200 _ _ _ _ 0 7 7 7 0 (by omega) rfl rfl rfl rfl rfl rfl rfl

/-- Witness for C3 (amended): HTTP 400 with an empty JSON object body. -/
theorem C3_http400_returns_none_witness :
    emotion_detector (ApiResponse.resp 400 (some (Json.obj []))) = none :=
  C3_http400_returns_none (some (Json.obj []))

/-- Witness for C8 at a transport failure. -/
theorem C8_total_dict_or_none_witness :
    (∃ rd : DetResult, emotion_detector ApiResponse.netFail = some rd) ∨
      emotion_detector ApiResponse.netFail = none :=
  C8_total_dict_or_none ApiResponse.netFail
